import Mathlib

/-!
Verification development for the shogun-SHIPS repository.

Part 1 models the SHIP-03 dual-key stealth-address core. The repository
ships only the SHIP-03 interface types (re-exported from `index.ts`); the
implementation file is not present in the provided sources, so the core is
modelled from the specification (sections 4.1-4.3 and 7), as the status
rules for missing code direct.

Part 2 is a shallow embedding of the SHIP-04 multi-modal authentication
coordinator (`src/implementation/SHIP_04.ts`), translated directly from the
TypeScript source: class state becomes an explicit state record, `async`
plugin and storage calls become oracle values supplied by the environment,
a thrown exception becomes `Except.error`, and a `try/catch` that converts
exceptions into failure results becomes a `match` on the oracle outcome.
-/

namespace StealthSpec

/-- Modelled from the spec: the order `n` of the secp256k1 group over which
all scalar arithmetic is performed (spec 2, "scalar/point arithmetic over a
secp256k1-compatible curve"); scalars live in `[1, n-1]`. -/
def curveOrder : Nat :=
  115792089237316195423570985008687907852837564279074904382605163141518161494337

/-- Modelled from the spec: a point of the curve group. The secp256k1 group
is cyclic of prime order `n`, so the group of points is modelled as the
cyclic group `Z/n`: a point is represented by its discrete logarithm with
respect to the generator, reduced `mod n`. A representation with
`val < curveOrder` is "on the curve"; `val = 0` is the identity point. The
spec treats curve primitives as an external vetted library (spec 2), so
this abstract group model is the mathematical content the algorithms use. -/
structure Point where
  val : Nat
deriving DecidableEq, Repr

/-- Modelled from the spec: the point is a valid curve point ("on the
curve", spec 4.2). In the cyclic-group model this is a canonical
representation, `val < curveOrder`. -/
def onCurve (P : Point) : Bool := P.val < curveOrder

/-- Modelled from the spec: the identity point, rejected by key-accepting
operations (spec 4.2, "is the identity point"). -/
def isIdentity (P : Point) : Bool := P.val == 0

/-- Modelled from the spec: point addition of the curve group. -/
def pointAdd (P Q : Point) : Point := ⟨(P.val + Q.val) % curveOrder⟩

/-- Modelled from the spec: scalar multiplication `k·P` of the curve
group. -/
def scalarMul (k : Nat) (P : Point) : Point := ⟨(k * P.val) % curveOrder⟩

/-- Modelled from the spec: the group generator `G`. -/
def genPoint : Point := ⟨1⟩

/-- Modelled from the spec: the public point of a private scalar,
`k·G` (spec 3, "spendingPublicKey = spendingPrivateKey·G"). -/
def pubOf (k : Nat) : Point := scalarMul k genPoint

/-- Modelled from the spec: a private scalar is valid when it lies in the
curve's valid scalar range `[1, n-1]` (spec 4.1, 8: "a scalar equal to 0 or
>= curve order n is rejected"). -/
def validScalar (k : Nat) : Bool := decide (0 < k) && decide (k < curveOrder)

/-- Modelled from the spec: a public key is valid when the point is on the
curve and is not the identity point (spec 4.2). -/
def validPoint (P : Point) : Bool := onCurve P && !(isIdentity P)

/-- Modelled from the spec: the first byte of a hash-to-scalar output, used
as the view tag (spec 4.2 step 5, `firstByte(hashToScalar(...))`). -/
def firstByte (h : Nat) : Nat := h % 256

/-- Modelled from the spec: the error taxonomy of section 7. -/
inductive StealthError
  | InvalidPrivateKey
  | InvalidPublicKey
  | RandomnessUnavailable
deriving DecidableEq, Repr

/-- Modelled from the spec: StealthMetadata (spec 3), the ephemeral public
key and the one-byte view tag published alongside a payment. -/
structure StealthMetadata where
  ephemeralPublicKey : Point
  viewTag : Nat
deriving DecidableEq, Repr

/-- Modelled from the spec: AnnouncedStealth (spec 3), a parsed announcement
log record. -/
structure AnnouncedStealth where
  stealthAddress : Nat
  metadata : StealthMetadata
  sequenceIndex : Nat
deriving DecidableEq, Repr

/-- Modelled from the spec: OwnedStealthAddress (spec 3), a successful scan
match carrying the reconstructed private key. -/
structure OwnedStealthAddress where
  stealthAddress : Nat
  stealthPrivateKey : Nat
  sourceAnnouncement : AnnouncedStealth
deriving DecidableEq, Repr

/-- Modelled from the spec: the result of `generateStealthAddress`
(spec 4.2, "Returns { stealthAddress, EphemeralKeyPair.ephemeralPublicKey,
StealthMetadata.viewTag }"). -/
structure StealthAddressResult where
  stealthAddress : Nat
  ephemeralPublicKey : Point
  viewTag : Nat
deriving DecidableEq, Repr

/-- Modelled from the spec: the shared-secret scalar computed by the sender,
`s = hashToScalar(ephemeralPrivateKey · viewingPublicKey)` (spec 4.2
step 2); `hash` is the hash-to-scalar function, a collaborator this core
treats as a pure function producing a scalar. -/
def sharedSecretSender (hash : Point → Nat) (ephPriv : Nat) (viewingPub : Point) : Nat :=
  hash (scalarMul ephPriv viewingPub) % curveOrder

/-- Modelled from the spec: the one-time stealth public key
`P_stealth = spendingPublicKey + s·G` (spec 4.2 step 3). -/
def stealthPub (hash : Point → Nat) (spendingPub viewingPub : Point) (ephPriv : Nat) : Point :=
  pointAdd spendingPub (scalarMul (sharedSecretSender hash ephPriv viewingPub) genPoint)

/-- Modelled from the spec: `generateStealthAddress(spendingPublicKey,
viewingPublicKey)` (spec 4.2). The fresh ephemeral private scalar of step 1
is drawn from the caller-supplied randomness source, so it appears here as
the argument `ephPriv`; `addrEnc` is the pluggable ledger address-encoding
function of step 4. Fails with `InvalidPublicKey` if either input point is
not on the curve or is the identity point. -/
def generateStealthAddress (hash : Point → Nat) (addrEnc : Point → Nat)
    (spendingPub viewingPub : Point) (ephPriv : Nat) :
    Except StealthError StealthAddressResult :=
  if !(validPoint spendingPub) then .error .InvalidPublicKey
  else if !(validPoint viewingPub) then .error .InvalidPublicKey
  else
    let ephPub := pubOf ephPriv
    let sharedPoint := scalarMul ephPriv viewingPub
    .ok { stealthAddress := addrEnc (stealthPub hash spendingPub viewingPub ephPriv)
          ephemeralPublicKey := ephPub
          viewTag := firstByte (hash sharedPoint) }

/-- Modelled from the spec: the announcement record a sender appends to the
log for a generated stealth address (spec 3, AnnouncedStealth; the
`sequenceIndex` is assigned by the log, not by this core). -/
def announcementOf (res : StealthAddressResult) (idx : Nat) : AnnouncedStealth :=
  { stealthAddress := res.stealthAddress
    metadata := { ephemeralPublicKey := res.ephemeralPublicKey, viewTag := res.viewTag }
    sequenceIndex := idx }

/-- Modelled from the spec: a raw log record as handed to the scanner; a
record either parses to an `AnnouncedStealth` or is malformed
(spec 7, `MalformedAnnouncement`: "a single log record fails to parse"). -/
inductive RawAnnouncement
  | valid (a : AnnouncedStealth)
  | malformed
deriving DecidableEq, Repr

/-- Modelled from the spec: steps 1-4 of the per-record scan (spec 4.3):
recompute the candidate shared secret, check the view tag first, then the
derived address, and on a match reconstruct
`stealthPrivateKey = spendingPrivateKey + s' (mod n)`. -/
def processAnnouncement (hash : Point → Nat) (addrEnc : Point → Nat)
    (spendingPriv viewingPriv : Nat) (a : AnnouncedStealth) :
    Option OwnedStealthAddress :=
  let sharedPoint := scalarMul viewingPriv a.metadata.ephemeralPublicKey
  if firstByte (hash sharedPoint) != a.metadata.viewTag then none
  else
    let s := hash sharedPoint % curveOrder
    let pCandidate := pointAdd (pubOf spendingPriv) (scalarMul s genPoint)
    if addrEnc pCandidate != a.stealthAddress then none
    else some { stealthAddress := a.stealthAddress
                stealthPrivateKey := (spendingPriv + s) % curveOrder
                sourceAnnouncement := a }

/-- Modelled from the spec: the scan result; matched addresses in log order
together with the count of malformed records, which are "skipped and logged
as a non-fatal anomaly, not an abort" and "surfaced as a count/list of
anomalies" (spec 4.3, 7). -/
structure ScanResult where
  owned : List OwnedStealthAddress
  anomalies : Nat
deriving DecidableEq, Repr

/-- Modelled from the spec: the record-by-record scan loop of spec 4.3, in
log order; a malformed record only increments the anomaly count and the
scan continues. -/
def scanRecords (hash : Point → Nat) (addrEnc : Point → Nat)
    (spendingPriv viewingPriv : Nat) : List RawAnnouncement → ScanResult
  | [] => { owned := [], anomalies := 0 }
  | r :: rest =>
    let tail := scanRecords hash addrEnc spendingPriv viewingPriv rest
    match r with
    | .malformed => { tail with anomalies := tail.anomalies + 1 }
    | .valid a =>
      match processAnnouncement hash addrEnc spendingPriv viewingPriv a with
      | some o => { tail with owned := o :: tail.owned }
      | none => tail

/-- Modelled from the spec: `checkStealthPayments` (spec 4.3). Full
spend-capable scanning needs both private keys (step 4 reconstructs the
spendable key from the spending private key); the operation fails with
`InvalidPrivateKey` if a supplied scalar is out of range, and otherwise
scans the whole log, skipping malformed records. -/
def checkStealthPayments (hash : Point → Nat) (addrEnc : Point → Nat)
    (spendingPriv viewingPriv : Nat) (log : List RawAnnouncement) :
    Except StealthError ScanResult :=
  if !(validScalar spendingPriv) then .error .InvalidPrivateKey
  else if !(validScalar viewingPriv) then .error .InvalidPrivateKey
  else .ok (scanRecords hash addrEnc spendingPriv viewingPriv log)

end StealthSpec

namespace SHIP04

/-- The `AuthMethod` enum of `ISHIP_04.ts` (PASSWORD, WEBAUTHN, NOSTR,
WEB3). -/
inductive AuthMethod
  | password
  | webauthn
  | nostr
  | web3
deriving DecidableEq, Repr

/-- The mutable fields of the `SHIP_04` class relevant to its observable
behaviour: the `initialized` flag, which plugins were constructed during
`initialize()` (each is `null` or an instance, modelled as a `Bool`), the
`currentAuthMethod` field, and the configuration values that flow into
results (`nostrRelays`, `web3Provider`, both defaulted in the
constructor so always present). -/
structure SHIP04State where
  initialized : Bool
  webauthnPlugin : Bool
  nostrPlugin : Bool
  web3Plugin : Bool
  currentAuthMethod : Option AuthMethod
  nostrRelays : List String
  web3Provider : String
deriving DecidableEq, Repr

/-- `isInitialized()` of `SHIP_04.ts`. -/
def isInitialized (st : SHIP04State) : Bool := st.initialized

/-- `getCurrentAuthMethod()` of `SHIP_04.ts`. -/
def getCurrentAuthMethod (st : SHIP04State) : Option AuthMethod := st.currentAuthMethod

/-- The message of the exception thrown by `ensureInitialized()`. -/
def initErrorMsg : String := "SHIP-04 not initialized. Call initialize() first."

/-- Outcomes of the external Gun-storage interaction used by
`saveAuthMethod`/`clearAuth`: whether `getShogun()?.db?.gun` is available,
whether `gun.user()` has a logged-in session (`user.is`), and the outcome
of the awaited `put` (which may reject). -/
structure StorageEnv where
  gunAvailable : Bool
  userLoggedIn : Bool
  put : Except String Unit
deriving Repr

/-- The body of the `try` block of `saveAuthMethod`: early `return` when
gun or the user session is unavailable, otherwise the awaited `put`. -/
def saveAuthMethodBody (env : StorageEnv) : Except String Unit :=
  if !env.gunAvailable then .ok ()
  else if !env.userLoggedIn then .ok ()
  else env.put

/-- The body of the `try` block of `clearAuth`: `put(null)` when gun and a
user session are available. -/
def clearAuthBody (env : StorageEnv) : Except String Unit :=
  if !env.gunAvailable then .ok ()
  else if !env.userLoggedIn then .ok ()
  else env.put

/-- A `catch` block that only does `console.error` and does not rethrow:
any exception is converted into normal completion. -/
def swallow : Except String Unit → Except String Unit
  | .ok _ => .ok ()
  | .error _ => .ok ()

/-- `saveAuthMethod(method)` of `SHIP_04.ts` (lines 527-541): the whole body
is wrapped in `try { ... } catch (error) { console.error(...) }`. -/
def saveAuthMethod (_method : AuthMethod) (env : StorageEnv) : Except String Unit :=
  swallow (saveAuthMethodBody env)

/-- `clearAuth()` of `SHIP_04.ts` (lines 504-522): sets
`currentAuthMethod = null`, then tries to clear the stored method, with the
storage error caught and only logged. -/
def clearAuth (st : SHIP04State) (env : StorageEnv) : SHIP04State × Except String Unit :=
  ({ st with currentAuthMethod := none }, swallow (clearAuthBody env))

/-- The result object of the WebAuthn plugin's `signUp`/`login` calls, as
read by `SHIP_04.ts` (`success`, `userPub`, `error`, and the `any`-cast
`derivedAddress`). -/
structure PluginSignUpResult where
  success : Bool
  userPub : Option String
  error : Option String
  derivedAddress : Option String
deriving DecidableEq, Repr

/-- The `WebAuthnAuthResult` of `ISHIP_04.ts`, restricted to the fields
`SHIP_04.ts` actually writes. -/
structure WebAuthnAuthResult where
  success : Bool
  userPub : Option String
  username : Option String
  derivedAddress : Option String
  error : Option String
deriving DecidableEq, Repr

/-- A `{ success: false, error: msg }` WebAuthn result. -/
def WebAuthnAuthResult.failure (msg : String) : WebAuthnAuthResult :=
  { success := false, userPub := none, username := none, derivedAddress := none
    error := some msg }

/-- The external interactions of `registerWithWebAuthn`/`loginWithWebAuthn`:
the awaited plugin call (which may throw), the `getCurrentUser()?.pub`
check, and the storage used by `saveAuthMethod`. -/
structure WebAuthnEnv where
  pluginCall : Except String PluginSignUpResult
  currentUserPub : Option String
  storage : StorageEnv
deriving Repr

/-- `registerWithWebAuthn(username)` of `SHIP_04.ts` (lines 147-199).
`ensureInitialized()` throws outside the `try`; the plugin-null check
returns a failure result; inside the `try`, a thrown exception becomes a
`{ success: false, error: error.message }` result; `currentAuthMethod` is
assigned and persisted only after every check has passed. -/
def registerWithWebAuthn (st : SHIP04State) (username : String) (env : WebAuthnEnv) :
    SHIP04State × Except String WebAuthnAuthResult :=
  if !st.initialized then (st, .error initErrorMsg)
  else if !st.webauthnPlugin then
    (st, .ok (.failure "WebAuthn plugin not initialized"))
  else
    match env.pluginCall with
    | .error e => (st, .ok (.failure e))
    | .ok result =>
      if !result.success then
        (st, .ok (.failure (result.error.getD "WebAuthn registration failed")))
      else
        match env.currentUserPub with
        | none => (st, .ok (.failure "SHIP-00 authentication verification failed"))
        | some _ =>
          ({ st with currentAuthMethod := some .webauthn },
           .ok { success := true, userPub := result.userPub, username := some username
                 derivedAddress := result.derivedAddress, error := none })

/-- `loginWithWebAuthn(username)` of `SHIP_04.ts` (lines 201-253); same
structure as registration with the plugin's `login` call and the
"WebAuthn login failed" default error. -/
def loginWithWebAuthn (st : SHIP04State) (username : String) (env : WebAuthnEnv) :
    SHIP04State × Except String WebAuthnAuthResult :=
  if !st.initialized then (st, .error initErrorMsg)
  else if !st.webauthnPlugin then
    (st, .ok (.failure "WebAuthn plugin not initialized"))
  else
    match env.pluginCall with
    | .error e => (st, .ok (.failure e))
    | .ok result =>
      if !result.success then
        (st, .ok (.failure (result.error.getD "WebAuthn login failed")))
      else
        match env.currentUserPub with
        | none => (st, .ok (.failure "SHIP-00 authentication verification failed"))
        | some _ =>
          ({ st with currentAuthMethod := some .webauthn },
           .ok { success := true, userPub := result.userPub, username := some username
                 derivedAddress := result.derivedAddress, error := none })

end SHIP04

namespace SHIP04

/-- The result object of `nostrPlugin.connectNostrWallet()`, as read by
`SHIP_04.ts`: the `success` flag, the `any`-cast `credentials.publicKey`
(`none` when credentials are absent), and `error`. -/
structure NostrConnectOutcome where
  success : Bool
  credentialsPubKey : Option String
  error : Option String
deriving DecidableEq, Repr

/-- The result object of a plugin `login` call (`nostrPlugin.login`,
`web3Plugin.login`), as read by `SHIP_04.ts`. -/
structure PluginLoginResult where
  success : Bool
  userPub : Option String
  username : Option String
  derivedAddress : Option String
  error : Option String
deriving DecidableEq, Repr

/-- The `NostrAuthResult` of `ISHIP_04.ts`, restricted to the fields
`SHIP_04.ts` actually writes. -/
structure NostrAuthResult where
  success : Bool
  userPub : Option String
  username : Option String
  derivedAddress : Option String
  nostrPubkey : Option String
  relays : Option (List String)
  error : Option String
deriving DecidableEq, Repr

/-- A `{ success: false, error: msg }` Nostr result. -/
def NostrAuthResult.failure (msg : String) : NostrAuthResult :=
  { success := false, userPub := none, username := none, derivedAddress := none
    nostrPubkey := none, relays := none, error := some msg }

/-- The external interactions of `connectNostr`: the awaited wallet
connection, availability of `shogun.db.gun` and `shogun.db.crypto`, the
awaited `crypto.hashText` and `gun.SEA.pair()` calls (whose values the
source never uses), the plugin `login` call, the `getCurrentUser()?.pub`
check, and the storage used by `saveAuthMethod`. Each awaited call may
throw, which the source's `catch` turns into a failure result. -/
structure NostrEnv where
  connectWallet : Except String NostrConnectOutcome
  gunAvailable : Bool
  cryptoAvailable : Bool
  hashText : Except String String
  seaPair : Except String Unit
  login : Except String PluginLoginResult
  currentUserPub : Option String
  storage : StorageEnv
deriving Repr

/-- `connectNostr()` of `SHIP_04.ts` (lines 264-354). `ensureInitialized()`
throws outside the `try`; the plugin-null check returns a failure result;
inside the `try` every thrown exception becomes a failure result;
`currentAuthMethod` is assigned and persisted only after every check has
passed, and the success result carries the Nostr pubkey and the configured
relays. -/
def connectNostr (st : SHIP04State) (env : NostrEnv) :
    SHIP04State × Except String NostrAuthResult :=
  if !st.initialized then (st, .error initErrorMsg)
  else if !st.nostrPlugin then
    (st, .ok (.failure "Nostr plugin not initialized"))
  else
    match env.connectWallet with
    | .error e => (st, .ok (.failure e))
    | .ok result =>
      match result.credentialsPubKey, result.success with
      | none, _ => (st, .ok (.failure (result.error.getD "Nostr connection failed")))
      | some _, false => (st, .ok (.failure (result.error.getD "Nostr connection failed")))
      | some nostrPubkey, true =>
        if !env.gunAvailable || !env.cryptoAvailable then
          (st, .ok (.failure "Cannot access Gun/crypto"))
        else
          match env.hashText with
          | .error e => (st, .ok (.failure e))
          | .ok _ =>
            match env.seaPair with
            | .error e => (st, .ok (.failure e))
            | .ok _ =>
              match env.login with
              | .error e => (st, .ok (.failure e))
              | .ok authResult =>
                if !authResult.success then
                  (st, .ok (.failure (authResult.error.getD "Nostr login failed")))
                else
                  match env.currentUserPub with
                  | none => (st, .ok (.failure "SHIP-00 authentication verification failed"))
                  | some _ =>
                    ({ st with currentAuthMethod := some .nostr },
                     .ok { success := true, userPub := authResult.userPub
                           username := authResult.username
                           derivedAddress := authResult.derivedAddress
                           nostrPubkey := some nostrPubkey
                           relays := some st.nostrRelays, error := none })

/-- `loginWithNostr()` of `SHIP_04.ts` (lines 356-359): a pure alias that
delegates to `connectNostr()`. -/
def loginWithNostr (st : SHIP04State) (env : NostrEnv) :
    SHIP04State × Except String NostrAuthResult :=
  connectNostr st env

/-- The result object of `web3Plugin.connectMetaMask()`, as read by
`SHIP_04.ts`: `success`, the wallet `address`, the `any`-cast `chainId`,
and `error`. -/
structure Web3ConnectOutcome where
  success : Bool
  address : Option String
  chainId : Option Nat
  error : Option String
deriving DecidableEq, Repr

/-- The `Web3AuthResult` of `ISHIP_04.ts`, restricted to the fields
`SHIP_04.ts` actually writes. -/
structure Web3AuthResult where
  success : Bool
  userPub : Option String
  username : Option String
  derivedAddress : Option String
  walletAddress : Option String
  chainId : Option Nat
  walletType : Option String
  error : Option String
deriving DecidableEq, Repr

/-- A `{ success: false, error: msg }` Web3 result. -/
def Web3AuthResult.failure (msg : String) : Web3AuthResult :=
  { success := false, userPub := none, username := none, derivedAddress := none
    walletAddress := none, chainId := none, walletType := none, error := some msg }

/-- The external interactions of `connectWeb3`: the awaited MetaMask
connection, the plugin `login` call, the `getCurrentUser()?.pub` check,
and the storage used by `saveAuthMethod`. -/
structure Web3Env where
  connectMetaMask : Except String Web3ConnectOutcome
  login : Except String PluginLoginResult
  currentUserPub : Option String
  storage : StorageEnv
deriving Repr

/-- `connectWeb3()` of `SHIP_04.ts` (lines 370-435). Same shape as the
other operations; the success result's `username` falls back to the wallet
address (`authResult.username || result.address`) and `walletType` comes
from the configured provider. -/
def connectWeb3 (st : SHIP04State) (env : Web3Env) :
    SHIP04State × Except String Web3AuthResult :=
  if !st.initialized then (st, .error initErrorMsg)
  else if !st.web3Plugin then
    (st, .ok (.failure "Web3 plugin not initialized"))
  else
    match env.connectMetaMask with
    | .error e => (st, .ok (.failure e))
    | .ok result =>
      match result.address, result.success with
      | none, _ => (st, .ok (.failure (result.error.getD "Web3 connection failed")))
      | some _, false => (st, .ok (.failure (result.error.getD "Web3 connection failed")))
      | some addr, true =>
        match env.login with
        | .error e => (st, .ok (.failure e))
        | .ok authResult =>
          if !authResult.success then
            (st, .ok (.failure (authResult.error.getD "Web3 login failed")))
          else
            match env.currentUserPub with
            | none => (st, .ok (.failure "SHIP-00 authentication verification failed"))
            | some _ =>
              ({ st with currentAuthMethod := some .web3 },
               .ok { success := true, userPub := authResult.userPub
                     username := some (authResult.username.getD addr)
                     derivedAddress := authResult.derivedAddress
                     walletAddress := some addr, chainId := result.chainId
                     walletType := some st.web3Provider, error := none })

/-- `loginWithWeb3(message?)` of `SHIP_04.ts` (lines 437-444): optionally
logs the custom message to the console and delegates to `connectWeb3()`;
the message is never used in signing or authentication. -/
def loginWithWeb3 (_message : Option String) (st : SHIP04State) (env : Web3Env) :
    SHIP04State × Except String Web3AuthResult :=
  connectWeb3 st env

end SHIP04

namespace StealthSpec

theorem curveOrder_pos : 0 < curveOrder := by decide

theorem pubOf_val (k : Nat) : pubOf k = ⟨k % curveOrder⟩ := by
  simp [pubOf, scalarMul, genPoint]

theorem validScalar_bounds {k : Nat} (h : validScalar k = true) :
    0 < k ∧ k < curveOrder := by
  simpa [validScalar] using h

theorem validPoint_pubOf {k : Nat} (h : validScalar k = true) :
    validPoint (pubOf k) = true := by
  obtain ⟨h1, h2⟩ := validScalar_bounds h
  simp only [validPoint, pubOf_val, onCurve, isIdentity, Bool.and_eq_true,
    decide_eq_true_eq, Bool.not_eq_true', beq_eq_false_iff_ne, ne_eq]
  rw [Nat.mod_eq_of_lt h2]
  omega

/-- ECDH commutativity of the underlying points: the scanner's
`viewingPrivateKey · ephemeralPublicKey` is the sender's
`ephemeralPrivateKey · viewingPublicKey`, for key pairs derived from the
same scalars. -/
theorem scalarMul_pubOf_comm (a b : Nat) :
    scalarMul a (pubOf b) = scalarMul b (pubOf a) := by
  simp only [pubOf_val, scalarMul, Point.mk.injEq]
  rw [Nat.mul_mod_mod, Nat.mul_mod_mod, Nat.mul_comm]

/-- The success payload `generateStealthAddress` produces for key pairs
derived from the scalars `sp`, `vp` and ephemeral scalar `e` (spec 4.2's
return value, written out). -/
def genResult (hash addrEnc : Point → Nat) (sp vp e : Nat) : StealthAddressResult :=
  { stealthAddress := addrEnc (stealthPub hash (pubOf sp) (pubOf vp) e)
    ephemeralPublicKey := pubOf e
    viewTag := firstByte (hash (scalarMul e (pubOf vp))) }

theorem generateStealthAddress_valid
    (hash addrEnc : Point → Nat) (sp vp e : Nat)
    (hs : validScalar sp = true) (hv : validScalar vp = true) :
    generateStealthAddress hash addrEnc (pubOf sp) (pubOf vp) e
      = .ok (genResult hash addrEnc sp vp e) := by
  unfold generateStealthAddress
  rw [validPoint_pubOf hs, validPoint_pubOf hv]
  rfl

theorem processAnnouncement_roundtrip
    (hash addrEnc : Point → Nat) (sp vp e idx : Nat) :
    processAnnouncement hash addrEnc sp vp
        (announcementOf (genResult hash addrEnc sp vp e) idx)
      = some { stealthAddress := (genResult hash addrEnc sp vp e).stealthAddress
               stealthPrivateKey :=
                 (sp + hash (scalarMul e (pubOf vp)) % curveOrder) % curveOrder
               sourceAnnouncement := announcementOf (genResult hash addrEnc sp vp e) idx } := by
  unfold processAnnouncement announcementOf genResult
  rw [scalarMul_pubOf_comm vp e]
  simp [stealthPub, sharedSecretSender]

theorem scanRecords_owned_append (hash addrEnc : Point → Nat) (sp vp : Nat)
    (xs ys : List RawAnnouncement) :
    (scanRecords hash addrEnc sp vp (xs ++ ys)).owned
      = (scanRecords hash addrEnc sp vp xs).owned
        ++ (scanRecords hash addrEnc sp vp ys).owned := by
  induction xs with
  | nil => simp [scanRecords]
  | cons r rest ih =>
    cases r with
    | malformed => simpa [scanRecords] using ih
    | valid a =>
      cases h : processAnnouncement hash addrEnc sp vp a with
      | none => simpa [scanRecords, h] using ih
      | some o => simp [scanRecords, h, ih]

theorem scanRecords_anomalies_append (hash addrEnc : Point → Nat) (sp vp : Nat)
    (xs ys : List RawAnnouncement) :
    (scanRecords hash addrEnc sp vp (xs ++ ys)).anomalies
      = (scanRecords hash addrEnc sp vp xs).anomalies
        + (scanRecords hash addrEnc sp vp ys).anomalies := by
  induction xs with
  | nil => simp [scanRecords]
  | cons r rest ih =>
    cases r with
    | malformed =>
      simp [scanRecords, ih]
      omega
    | valid a =>
      cases h : processAnnouncement hash addrEnc sp vp a with
      | none => simpa [scanRecords, h] using ih
      | some o => simpa [scanRecords, h] using ih

theorem scanRecords_append (hash addrEnc : Point → Nat) (sp vp : Nat)
    (xs ys : List RawAnnouncement) :
    scanRecords hash addrEnc sp vp (xs ++ ys)
      = { owned := (scanRecords hash addrEnc sp vp xs).owned
            ++ (scanRecords hash addrEnc sp vp ys).owned
          anomalies := (scanRecords hash addrEnc sp vp xs).anomalies
            + (scanRecords hash addrEnc sp vp ys).anomalies } := by
  have he : scanRecords hash addrEnc sp vp (xs ++ ys)
      = { owned := (scanRecords hash addrEnc sp vp (xs ++ ys)).owned
          anomalies := (scanRecords hash addrEnc sp vp (xs ++ ys)).anomalies } := rfl
  rw [he, scanRecords_owned_append, scanRecords_anomalies_append]

/-- C1: for every valid recipient key pair and valid ephemeral scalar,
`generateStealthAddress` followed by `checkStealthPayments` with the
matching private keys over a log containing the resulting announcement
returns exactly one `OwnedStealthAddress`, whose `stealthAddress` equals
the generated one and whose reconstructed `stealthPrivateKey` satisfies
`stealthPrivateKey·G = P_stealth` from generation. -/
theorem generate_then_scan_returns_exactly_one
    (hash addrEnc : Point → Nat) (sp vp e idx : Nat)
    (hs : validScalar sp = true) (hv : validScalar vp = true) (he : validScalar e = true)
    (res : StealthAddressResult)
    (hgen : generateStealthAddress hash addrEnc (pubOf sp) (pubOf vp) e = .ok res) :
    ∃ o : OwnedStealthAddress,
      checkStealthPayments hash addrEnc sp vp
          [RawAnnouncement.valid (announcementOf res idx)]
        = .ok { owned := [o], anomalies := 0 }
      ∧ o.stealthAddress = res.stealthAddress
      ∧ scalarMul o.stealthPrivateKey genPoint
          = stealthPub hash (pubOf sp) (pubOf vp) e := by
  rw [generateStealthAddress_valid hash addrEnc sp vp e hs hv] at hgen
  injection hgen with h
  subst h
  refine ⟨{ stealthAddress := (genResult hash addrEnc sp vp e).stealthAddress
            stealthPrivateKey :=
              (sp + hash (scalarMul e (pubOf vp)) % curveOrder) % curveOrder
            sourceAnnouncement := announcementOf (genResult hash addrEnc sp vp e) idx },
         ?_, rfl, ?_⟩
  · simp [checkStealthPayments, hs, hv, scanRecords, processAnnouncement_roundtrip]
  · simp only [stealthPub, sharedSecretSender, scalarMul, pointAdd, genPoint,
      pubOf_val, Nat.mul_one, Point.mk.injEq]
    rw [Nat.mod_mod_of_dvd _ dvd_rfl, Nat.mod_mod_of_dvd _ dvd_rfl, Nat.mod_add_mod]

theorem generate_then_scan_returns_exactly_one_witness :
    ∃ o : OwnedStealthAddress,
      checkStealthPayments (fun p => p.val) (fun p => p.val) 2 3
          [RawAnnouncement.valid
            (announcementOf (genResult (fun p => p.val) (fun p => p.val) 2 3 5) 0)]
        = .ok { owned := [o], anomalies := 0 }
      ∧ o.stealthAddress = (genResult (fun p => p.val) (fun p => p.val) 2 3 5).stealthAddress
      ∧ scalarMul o.stealthPrivateKey genPoint
          = stealthPub (fun p => p.val) (pubOf 2) (pubOf 3) 5 :=
  generate_then_scan_returns_exactly_one (fun p => p.val) (fun p => p.val) 2 3 5 0
    (by decide) (by decide) (by decide)
    (genResult (fun p => p.val) (fun p => p.val) 2 3 5) rfl

/-- C2: for every announcement genuinely addressed to the recipient
(produced by `generateStealthAddress` from the recipient's public keys),
the view tag recomputed by the scanner as
`firstByte(hashToScalar(viewingPrivateKey · ephemeralPublicKey))` equals
the announcement's stored `viewTag`, so the view-tag pre-filter never
skips a true match. -/
theorem view_tag_never_skips_true_match
    (hash addrEnc : Point → Nat) (spendingPub : Point) (vp e idx : Nat)
    (res : StealthAddressResult)
    (hgen : generateStealthAddress hash addrEnc spendingPub (pubOf vp) e = .ok res) :
    firstByte (hash (scalarMul vp (announcementOf res idx).metadata.ephemeralPublicKey))
      = (announcementOf res idx).metadata.viewTag := by
  unfold generateStealthAddress at hgen
  split at hgen
  · cases hgen
  · split at hgen
    · cases hgen
    · injection hgen with h
      subst h
      simp [announcementOf, scalarMul_pubOf_comm vp e]

theorem view_tag_never_skips_true_match_witness :
    firstByte ((fun p : Point => p.val) (scalarMul 3
        (announcementOf (genResult (fun p => p.val) (fun p => p.val) 2 3 5)
          0).metadata.ephemeralPublicKey))
      = (announcementOf (genResult (fun p => p.val) (fun p => p.val) 2 3 5)
          0).metadata.viewTag :=
  view_tag_never_skips_true_match (fun p => p.val) (fun p => p.val) (pubOf 2) 3 5 0
    (genResult (fun p => p.val) (fun p => p.val) 2 3 5) rfl

/-- C3: for every viewing key pair and ephemeral key pair derived from the
same underlying scalars, the sender-side shared secret
`hashToScalar(ephemeralPrivateKey · viewingPublicKey)` equals the
scanner-side `hashToScalar(viewingPrivateKey · ephemeralPublicKey)`: the
underlying ECDH points coincide, hence so do the hashed secrets. -/
theorem ecdh_shared_secrets_equal (hash : Point → Nat) (e vp : Nat) :
    scalarMul e (pubOf vp) = scalarMul vp (pubOf e)
    ∧ sharedSecretSender hash e (pubOf vp)
        = hash (scalarMul vp (pubOf e)) % curveOrder := by
  refine ⟨scalarMul_pubOf_comm e vp, ?_⟩
  unfold sharedSecretSender
  rw [scalarMul_pubOf_comm e vp]

/-- C4: a scalar equal to 0 or at least the curve order, and a point off
the curve or equal to the identity, are rejected by the key-accepting
operations: `generateStealthAddress` fails with `InvalidPublicKey` when
either input point is invalid, and `checkStealthPayments` fails with
`InvalidPrivateKey` when either private scalar is out of range, instead of
proceeding with the computation. -/
theorem invalid_keys_rejected
    (hash addrEnc : Point → Nat) (P Q : Point) (sp vp e : Nat)
    (log : List RawAnnouncement)
    (hPQ : onCurve P = false ∨ isIdentity P = true
           ∨ onCurve Q = false ∨ isIdentity Q = true)
    (hsv : sp = 0 ∨ curveOrder ≤ sp ∨ vp = 0 ∨ curveOrder ≤ vp) :
    generateStealthAddress hash addrEnc P Q e = .error .InvalidPublicKey
    ∧ checkStealthPayments hash addrEnc sp vp log = .error .InvalidPrivateKey := by
  constructor
  · unfold generateStealthAddress
    cases hvP : validPoint P
    · simp
    · have hvQ : validPoint Q = false := by
        rcases hPQ with h | h | h | h
        · simp [validPoint, h] at hvP
        · simp [validPoint, h] at hvP
        · simp [validPoint, h]
        · simp [validPoint, h]
      simp [hvQ]
  · unfold checkStealthPayments
    cases hvs : validScalar sp
    · simp
    · have hvv : validScalar vp = false := by
        have hb := validScalar_bounds hvs
        simp only [validScalar, Bool.and_eq_false_iff, decide_eq_false_iff_not]
        rcases hsv with h | h | h | h
        · omega
        · omega
        · exact Or.inl (by omega)
        · exact Or.inr (by omega)
      simp [hvv]

theorem invalid_keys_rejected_witness :
    generateStealthAddress (fun p => p.val) (fun p => p.val) ⟨0⟩ ⟨1⟩ 1
      = .error .InvalidPublicKey
    ∧ checkStealthPayments (fun p => p.val) (fun p => p.val) 0 1 []
      = .error .InvalidPrivateKey :=
  invalid_keys_rejected (fun p => p.val) (fun p => p.val) ⟨0⟩ ⟨1⟩ 0 1 1 []
    (by decide) (by decide)

/-- C5: during `checkStealthPayments`, a malformed announcement record
causes only that single record to be skipped: the scan continues, the
matches computed from the records before and after the malformed one are
all returned in order, and the anomaly is surfaced as a count in the
result rather than aborting the scan; only invalid key inputs abort the
call. -/
theorem malformed_announcement_only_skipped
    (hash addrEnc : Point → Nat) (sp vp : Nat)
    (l1 l2 : List RawAnnouncement)
    (hs : validScalar sp = true) (hv : validScalar vp = true) :
    checkStealthPayments hash addrEnc sp vp (l1 ++ RawAnnouncement.malformed :: l2)
      = .ok { owned := (scanRecords hash addrEnc sp vp l1).owned
                ++ (scanRecords hash addrEnc sp vp l2).owned
              anomalies := (scanRecords hash addrEnc sp vp l1).anomalies
                + ((scanRecords hash addrEnc sp vp l2).anomalies + 1) } := by
  unfold checkStealthPayments
  rw [hs, hv]
  simp only [Bool.not_true, Bool.false_eq_true, if_false]
  rw [scanRecords_append]
  have h2 : scanRecords hash addrEnc sp vp (RawAnnouncement.malformed :: l2)
      = { owned := (scanRecords hash addrEnc sp vp l2).owned
          anomalies := (scanRecords hash addrEnc sp vp l2).anomalies + 1 } := rfl
  rw [h2]

theorem malformed_announcement_only_skipped_witness :
    checkStealthPayments (fun p => p.val) (fun p => p.val) 1 1
        ([RawAnnouncement.valid
            { stealthAddress := 0
              metadata := { ephemeralPublicKey := ⟨0⟩, viewTag := 0 }
              sequenceIndex := 0 }]
          ++ RawAnnouncement.malformed :: [])
      = .ok { owned := (scanRecords (fun p => p.val) (fun p => p.val) 1 1
                [RawAnnouncement.valid
                  { stealthAddress := 0
                    metadata := { ephemeralPublicKey := ⟨0⟩, viewTag := 0 }
                    sequenceIndex := 0 }]).owned
                ++ (scanRecords (fun p => p.val) (fun p => p.val) 1 1 []).owned
              anomalies := (scanRecords (fun p => p.val) (fun p => p.val) 1 1
                [RawAnnouncement.valid
                  { stealthAddress := 0
                    metadata := { ephemeralPublicKey := ⟨0⟩, viewTag := 0 }
                    sequenceIndex := 0 }]).anomalies
                + ((scanRecords (fun p => p.val) (fun p => p.val) 1 1 []).anomalies + 1) } :=
  malformed_announcement_only_skipped (fun p => p.val) (fun p => p.val) 1 1
    [RawAnnouncement.valid
      { stealthAddress := 0
        metadata := { ephemeralPublicKey := ⟨0⟩, viewTag := 0 }
        sequenceIndex := 0 }] []
    (by decide) (by decide)

end StealthSpec

namespace SHIP04

theorem registerWithWebAuthn_method (st : SHIP04State) (u : String) (env : WebAuthnEnv) :
    (registerWithWebAuthn st u env).1.currentAuthMethod =
      match (registerWithWebAuthn st u env).2 with
      | .ok r => if r.success then some AuthMethod.webauthn else st.currentAuthMethod
      | .error _ => st.currentAuthMethod := by
  rcases st with ⟨init, wa, np, w3, cam, rel, prov⟩
  rcases env with ⟨pc, cu, stg⟩
  unfold registerWithWebAuthn
  cases init <;> cases wa <;> simp [WebAuthnAuthResult.failure]
  rcases pc with e | result
  · simp [WebAuthnAuthResult.failure]
  · cases hrs : result.success <;> simp [WebAuthnAuthResult.failure, hrs]
    cases cu <;> simp

theorem registerWithWebAuthn_throws (st : SHIP04State) (u : String) (env : WebAuthnEnv) :
    match (registerWithWebAuthn st u env).2 with
    | .error msg => isInitialized st = false ∧ msg = initErrorMsg
    | .ok r => isInitialized st = true ∧ (r.success || r.error.isSome) = true := by
  rcases st with ⟨init, wa, np, w3, cam, rel, prov⟩
  rcases env with ⟨pc, cu, stg⟩
  unfold registerWithWebAuthn isInitialized
  cases init <;> cases wa <;> simp [WebAuthnAuthResult.failure]
  rcases pc with e | result
  · simp [WebAuthnAuthResult.failure]
  · cases hrs : result.success <;> simp [WebAuthnAuthResult.failure, hrs]
    cases cu <;> simp

end SHIP04

namespace SHIP04

theorem loginWithWebAuthn_method (st : SHIP04State) (u : String) (env : WebAuthnEnv) :
    (loginWithWebAuthn st u env).1.currentAuthMethod =
      match (loginWithWebAuthn st u env).2 with
      | .ok r => if r.success then some AuthMethod.webauthn else st.currentAuthMethod
      | .error _ => st.currentAuthMethod := by
  rcases st with ⟨init, wa, np, w3, cam, rel, prov⟩
  rcases env with ⟨pc, cu, stg⟩
  unfold loginWithWebAuthn
  cases init <;> cases wa <;> simp [WebAuthnAuthResult.failure]
  rcases pc with e | result
  · simp [WebAuthnAuthResult.failure]
  · cases hrs : result.success <;> simp [WebAuthnAuthResult.failure, hrs]
    cases cu <;> simp

theorem loginWithWebAuthn_throws (st : SHIP04State) (u : String) (env : WebAuthnEnv) :
    match (loginWithWebAuthn st u env).2 with
    | .error msg => isInitialized st = false ∧ msg = initErrorMsg
    | .ok r => isInitialized st = true ∧ (r.success || r.error.isSome) = true := by
  rcases st with ⟨init, wa, np, w3, cam, rel, prov⟩
  rcases env with ⟨pc, cu, stg⟩
  unfold loginWithWebAuthn isInitialized
  cases init <;> cases wa <;> simp [WebAuthnAuthResult.failure]
  rcases pc with e | result
  · simp [WebAuthnAuthResult.failure]
  · cases hrs : result.success <;> simp [WebAuthnAuthResult.failure, hrs]
    cases cu <;> simp

theorem connectNostr_method (st : SHIP04State) (env : NostrEnv) :
    (connectNostr st env).1.currentAuthMethod =
      match (connectNostr st env).2 with
      | .ok r => if r.success then some AuthMethod.nostr else st.currentAuthMethod
      | .error _ => st.currentAuthMethod := by
  rcases st with ⟨init, wa, np, w3, cam, rel, prov⟩
  rcases env with ⟨cw, ga, ca, ht, sea, lg, cu, stg⟩
  unfold connectNostr
  cases init <;> cases np <;> simp [NostrAuthResult.failure]
  rcases cw with e | result
  · simp [NostrAuthResult.failure]
  · rcases hcred : result.credentialsPubKey with _ | pk
    · simp [NostrAuthResult.failure, hcred]
    · cases hrs : result.success <;> simp [NostrAuthResult.failure, hcred, hrs]
      cases ga <;> cases ca <;> simp [NostrAuthResult.failure]
      rcases ht with e | hv
      · simp [NostrAuthResult.failure]
      · rcases sea with e | sv
        · simp [NostrAuthResult.failure]
        · rcases lg with e | ar
          · simp [NostrAuthResult.failure]
          · cases har : ar.success <;> simp [NostrAuthResult.failure, har]
            cases cu <;> simp

theorem connectNostr_throws (st : SHIP04State) (env : NostrEnv) :
    match (connectNostr st env).2 with
    | .error msg => isInitialized st = false ∧ msg = initErrorMsg
    | .ok r => isInitialized st = true ∧ (r.success || r.error.isSome) = true := by
  rcases st with ⟨init, wa, np, w3, cam, rel, prov⟩
  rcases env with ⟨cw, ga, ca, ht, sea, lg, cu, stg⟩
  unfold connectNostr isInitialized
  cases init <;> cases np <;> simp [NostrAuthResult.failure]
  rcases cw with e | result
  · simp [NostrAuthResult.failure]
  · rcases hcred : result.credentialsPubKey with _ | pk
    · simp [NostrAuthResult.failure, hcred]
    · cases hrs : result.success <;> simp [NostrAuthResult.failure, hcred, hrs]
      cases ga <;> cases ca <;> simp [NostrAuthResult.failure]
      rcases ht with e | hv
      · simp [NostrAuthResult.failure]
      · rcases sea with e | sv
        · simp [NostrAuthResult.failure]
        · rcases lg with e | ar
          · simp [NostrAuthResult.failure]
          · cases har : ar.success <;> simp [NostrAuthResult.failure, har]
            cases cu <;> simp

theorem connectWeb3_method (st : SHIP04State) (env : Web3Env) :
    (connectWeb3 st env).1.currentAuthMethod =
      match (connectWeb3 st env).2 with
      | .ok r => if r.success then some AuthMethod.web3 else st.currentAuthMethod
      | .error _ => st.currentAuthMethod := by
  rcases st with ⟨init, wa, np, w3, cam, rel, prov⟩
  rcases env with ⟨cm, lg, cu, stg⟩
  unfold connectWeb3
  cases init <;> cases w3 <;> simp [Web3AuthResult.failure]
  rcases cm with e | result
  · simp [Web3AuthResult.failure]
  · rcases haddr : result.address with _ | addr
    · simp [Web3AuthResult.failure, haddr]
    · cases hrs : result.success <;> simp [Web3AuthResult.failure, haddr, hrs]
      rcases lg with e | ar
      · simp [Web3AuthResult.failure]
      · cases har : ar.success <;> simp [Web3AuthResult.failure, har]
        cases cu <;> simp

theorem connectWeb3_throws (st : SHIP04State) (env : Web3Env) :
    match (connectWeb3 st env).2 with
    | .error msg => isInitialized st = false ∧ msg = initErrorMsg
    | .ok r => isInitialized st = true ∧ (r.success || r.error.isSome) = true := by
  rcases st with ⟨init, wa, np, w3, cam, rel, prov⟩
  rcases env with ⟨cm, lg, cu, stg⟩
  unfold connectWeb3 isInitialized
  cases init <;> cases w3 <;> simp [Web3AuthResult.failure]
  rcases cm with e | result
  · simp [Web3AuthResult.failure]
  · rcases haddr : result.address with _ | addr
    · simp [Web3AuthResult.failure, haddr]
    · cases hrs : result.success <;> simp [Web3AuthResult.failure, haddr, hrs]
      rcases lg with e | ar
      · simp [Web3AuthResult.failure]
      · cases har : ar.success <;> simp [Web3AuthResult.failure, har]
        cases cu <;> simp

end SHIP04

namespace SHIP04

/-- C6 counterexample: at a concrete state and a storage whose `put`
rejects with "gun put failed", `clearAuth` completes with `Except.ok ()`
and `saveAuthMethod` likewise, so the storage failure is not reported to
the caller — refuting the claim that these operations surface a storage
failure in their result. -/
theorem clearAuth_completes_despite_storage_failure :
    (clearAuth
        { initialized := true, webauthnPlugin := true, nostrPlugin := true
          web3Plugin := true, currentAuthMethod := some AuthMethod.webauthn
          nostrRelays := [], web3Provider := "metamask" }
        { gunAvailable := true, userLoggedIn := true
          put := Except.error "gun put failed" }).2 = Except.ok ()
    ∧ saveAuthMethod AuthMethod.webauthn
        { gunAvailable := true, userLoggedIn := true
          put := Except.error "gun put failed" } = Except.ok () :=
  ⟨rfl, rfl⟩

/-- C6 amended: `clearAuth` and `saveAuthMethod` always complete
successfully: a storage failure is caught internally, logged to the
console, and never surfaced in the operation's returned result;
`clearAuth` still clears the in-memory auth method. -/
theorem clearAuth_and_save_swallow_storage_errors
    (st : SHIP04State) (m : AuthMethod) (env env2 : StorageEnv) :
    (clearAuth st env).2 = Except.ok ()
    ∧ getCurrentAuthMethod (clearAuth st env).1 = none
    ∧ saveAuthMethod m env2 = Except.ok () := by
  refine ⟨?_, rfl, ?_⟩
  · unfold clearAuth
    cases h : clearAuthBody env <;> simp [swallow, h]
  · unfold saveAuthMethod
    cases h : saveAuthMethodBody env2 <;> simp [swallow, h]

/-- C8: `loginWithNostr()` returns exactly the result of `connectNostr()`,
and `loginWithWeb3(message)` returns exactly the result of `connectWeb3()`
for every value of the optional message argument (including none) — the
message argument is never used in signing or authentication. -/
theorem login_delegates_to_connect (st : SHIP04State) (nenv : NostrEnv)
    (w3env : Web3Env) (message : Option String) :
    loginWithNostr st nenv = connectNostr st nenv
    ∧ loginWithWeb3 message st w3env = connectWeb3 st w3env :=
  ⟨rfl, rfl⟩

/-- C9: for each authentication operation, the stored current auth method
is assigned only on the full-success path: on a `success = false` result
or a thrown exception, `getCurrentAuthMethod` afterwards returns the value
it returned before the call (and on full success it is the method that
just authenticated). -/
theorem auth_method_assigned_only_on_success
    (st : SHIP04State) (u : String) (wenv : WebAuthnEnv) (nenv : NostrEnv)
    (w3env : Web3Env) :
    (getCurrentAuthMethod (registerWithWebAuthn st u wenv).1 =
      match (registerWithWebAuthn st u wenv).2 with
      | .ok r => if r.success then some AuthMethod.webauthn
                 else getCurrentAuthMethod st
      | .error _ => getCurrentAuthMethod st)
    ∧ (getCurrentAuthMethod (loginWithWebAuthn st u wenv).1 =
      match (loginWithWebAuthn st u wenv).2 with
      | .ok r => if r.success then some AuthMethod.webauthn
                 else getCurrentAuthMethod st
      | .error _ => getCurrentAuthMethod st)
    ∧ (getCurrentAuthMethod (connectNostr st nenv).1 =
      match (connectNostr st nenv).2 with
      | .ok r => if r.success then some AuthMethod.nostr
                 else getCurrentAuthMethod st
      | .error _ => getCurrentAuthMethod st)
    ∧ (getCurrentAuthMethod (connectWeb3 st w3env).1 =
      match (connectWeb3 st w3env).2 with
      | .ok r => if r.success then some AuthMethod.web3
                 else getCurrentAuthMethod st
      | .error _ => getCurrentAuthMethod st) :=
  ⟨registerWithWebAuthn_method st u wenv, loginWithWebAuthn_method st u wenv,
   connectNostr_method st nenv, connectWeb3_method st w3env⟩

/-- C10: each of the four authentication operations throws exactly the
"SHIP-04 not initialized. Call initialize() first." error when
`isInitialized()` is false at the time of the call; once initialized, the
operations never throw — every internal failure is returned as a result
with `success = false` and an error message. -/
theorem operations_throw_iff_uninitialized
    (st : SHIP04State) (u : String) (wenv : WebAuthnEnv) (nenv : NostrEnv)
    (w3env : Web3Env) :
    (match (registerWithWebAuthn st u wenv).2 with
     | .error msg => isInitialized st = false ∧ msg = initErrorMsg
     | .ok r => isInitialized st = true ∧ (r.success || r.error.isSome) = true)
    ∧ (match (loginWithWebAuthn st u wenv).2 with
     | .error msg => isInitialized st = false ∧ msg = initErrorMsg
     | .ok r => isInitialized st = true ∧ (r.success || r.error.isSome) = true)
    ∧ (match (connectNostr st nenv).2 with
     | .error msg => isInitialized st = false ∧ msg = initErrorMsg
     | .ok r => isInitialized st = true ∧ (r.success || r.error.isSome) = true)
    ∧ (match (connectWeb3 st w3env).2 with
     | .error msg => isInitialized st = false ∧ msg = initErrorMsg
     | .ok r => isInitialized st = true ∧ (r.success || r.error.isSome) = true) :=
  ⟨registerWithWebAuthn_throws st u wenv, loginWithWebAuthn_throws st u wenv,
   connectNostr_throws st nenv, connectWeb3_throws st w3env⟩

end SHIP04
